import Mathlib

/-!
Verification of the superkeg flow-measurement and pour-event pipeline.

Shallow embedding of the relevant parts of the repository:
* `FlowMeter` — src/flow_meter.py, class FlowMeter (pulse counting with
  debounce, rolling-window flow rate, volume, reset, calibrate);
* `Tracker` — src/flow_meter.py, class KegFlowTracker (pour-session
  detection and finalization by the `_monitor_pour_events` loop);
* `DB`, `flow_update`, `subtract_volume` — src/app.py `/api/flow/<keg_id>`
  handler and src/keg_app.py keg-store operations;
* the integration fallback — src/flow_meter_integration.py
  `_update_keg_volume_db` / `_log_pour_event_db`.

Python floats are modelled as rationals (ℚ), Python ints as ℕ; a raised
exception is modelled as `Option.none`.
-/

namespace Superkeg

/-- State of `FlowMeter` (src/flow_meter.py) restricted to the fields the
pulse/volume/rate/calibration logic reads and writes.  `flow_rate_window`
is set to 10 seconds in `__init__`. -/
structure FlowMeter where
  pulses_per_liter : ℚ
  pulse_count : ℕ
  volume_total : ℚ
  flow_rate : ℚ
  last_pulse_time : ℚ
  pulse_times : List ℚ
  flow_rate_window : ℚ
deriving Repr, DecidableEq

/-- `FlowMeter.__init__(gpio_pin, pulses_per_liter)`: counters zeroed,
empty pulse-time history, 10 s rate window. -/
def FlowMeter.init (ppl : ℚ) : FlowMeter :=
  { pulses_per_liter := ppl
    pulse_count := 0
    volume_total := 0
    flow_rate := 0
    last_pulse_time := 0
    pulse_times := []
    flow_rate_window := 10 }

/-- The pruned pulse-time list computed inside `_pulse_detected`: the new
timestamp is appended, then every element not strictly inside the trailing
window `(t - flow_rate_window, t]` is removed
(`[t for t in self.pulse_times if t > cutoff_time]`). -/
def prunedTimes (t : ℚ) (s : FlowMeter) : List ℚ :=
  (s.pulse_times ++ [t]).filter (fun u => decide (t - s.flow_rate_window < u))

/-- `pulse_times[-1] - pulse_times[0]` for a nonempty list. -/
def span (l : List ℚ) : ℚ :=
  l.getLast?.getD 0 - l.head?.getD 0

/-- `FlowMeter._pulse_detected` (src/flow_meter.py lines 97-136), called
with the current time `t`: debounce (< 1 ms since the last accepted pulse
⇒ return unchanged), then increment `pulse_count`, record `t`, prune the
window, recompute `volume_total = pulse_count / pulses_per_liter`, and
recompute `flow_rate` only when more than one sample remains in the window
and their time span is positive (otherwise the old value is kept). -/
def pulseDetected (t : ℚ) (s : FlowMeter) : FlowMeter :=
  if t - s.last_pulse_time < 1/1000 then s
  else
    let times := prunedTimes t s
    let fr :=
      if 1 < times.length ∧ 0 < span times then
        (((times.length : ℚ) - 1) / span times) / s.pulses_per_liter * 60
      else s.flow_rate
    { s with
      pulse_count := s.pulse_count + 1
      last_pulse_time := t
      pulse_times := times
      volume_total := ((s.pulse_count + 1 : ℕ) : ℚ) / s.pulses_per_liter
      flow_rate := fr }

/-- `FlowMeter.reset` (src/flow_meter.py lines 191-197): zeroes pulse
count, volume, rate and pulse-time history; calibration and
`last_pulse_time` are untouched. -/
def FlowMeter.reset (s : FlowMeter) : FlowMeter :=
  { s with pulse_count := 0, volume_total := 0, flow_rate := 0, pulse_times := [] }

/-- `FlowMeter.calibrate(known_volume_liters)` (src/flow_meter.py lines
199-211).  With at least one pulse it sets
`pulses_per_liter = pulse_count / known_volume_liters` and
`volume_total = known_volume_liters`; the division raises
`ZeroDivisionError` when the argument is zero (modelled as `none`).  With
zero pulses it only logs a warning. -/
def FlowMeter.calibrate (v : ℚ) (s : FlowMeter) : Option FlowMeter :=
  if 0 < s.pulse_count then
    if v = 0 then none
    else some { s with pulses_per_liter := (s.pulse_count : ℚ) / v, volume_total := v }
  else some s

/-- Process a sequence of raw edge timestamps through `_pulse_detected`. -/
def runPulses (ts : List ℚ) (s : FlowMeter) : FlowMeter :=
  ts.foldl (fun acc t => pulseDetected t acc) s

/-- An operation applied to a flow meter: a raw edge, a reset, or a
calibration call. -/
inductive Op where
  | pulse (t : ℚ)
  | reset
  | calib (v : ℚ)

/-- Run one operation; `none` models an uncaught exception. -/
def runOp (s : FlowMeter) : Op → Option FlowMeter
  | .pulse t => some (pulseDetected t s)
  | .reset => some s.reset
  | .calib v => s.calibrate v

/-- Run a sequence of operations, stopping at the first exception. -/
def runOps (ops : List Op) (s : FlowMeter) : Option FlowMeter :=
  ops.foldlM runOp s

/-! ## Keg store (src/keg_app.py, src/app.py) -/

/-- `KegStatus` enum (src/keg_app.py). -/
inductive KegStatus where
  | untapped
  | tapped
  | off_tap
deriving Repr, DecidableEq

/-- A `Keg` row, restricted to the columns the flow pipeline reads and
writes. -/
structure Keg where
  id : ℕ
  status : KegStatus
  volume_remaining : ℚ
deriving Repr, DecidableEq

/-- A `PourEvent` row (timestamp omitted: the pipeline only appends the
current time and never reads it back). -/
structure PourEvent where
  keg_id : ℕ
  volume_dispensed : ℚ
deriving Repr, DecidableEq

/-- The persistent store: the `kegs` table and the append-only
`pour_events` table. -/
structure DB where
  kegs : List Keg
  pour_events : List PourEvent
deriving Repr, DecidableEq

/-- The query `session.query(Keg).filter(Keg.id == keg_id,
Keg.status == KegStatus.TAPPED).first()`. -/
def kegMatch (kid : ℕ) (k : Keg) : Bool :=
  k.id == kid && k.status == KegStatus.tapped

/-- First keg with the given id in Tapped status, if any. -/
def findTapped (kid : ℕ) (db : DB) : Option Keg :=
  db.kegs.find? (kegMatch kid)

/-- Replace the first element satisfying `p` by its image under `f`
(SQLAlchemy mutates the single row returned by `.first()`; `id` is the
primary key). -/
def updateFirst (p : α → Bool) (f : α → α) : List α → List α
  | [] => []
  | x :: xs => if p x then f x :: xs else x :: updateFirst p f xs

/-- `keg.volume_remaining = max(0, keg.volume_remaining - volume)` — the
clamped subtraction shared verbatim by src/app.py line 650,
src/keg_app.py line 117 and src/flow_meter_integration.py line 69. -/
def clampKeg (v : ℚ) (k : Keg) : Keg :=
  { k with volume_remaining := max 0 (k.volume_remaining - v) }

/-- Result of the `/api/flow/<keg_id>` POST handler. -/
inductive FlowResult where
  | ok (keg_id : ℕ) (volume_remaining : ℚ)
  | notFoundOrNotTapped
deriving Repr, DecidableEq

/-- `flow_update` (src/app.py lines 644-679), after input validation: look
up the keg by id in Tapped status; if found, set
`volume_remaining = max(0, volume_remaining - volume_dispensed)`, add one
`PourEvent` with the dispensed volume, and commit both in the same session
transaction, answering 200 with the final volume; otherwise answer 404 and
change nothing. -/
def flow_update (kid : ℕ) (v : ℚ) (db : DB) : DB × FlowResult :=
  match findTapped kid db with
  | some keg =>
      ({ kegs := updateFirst (kegMatch kid) (clampKeg v) db.kegs
         pour_events := db.pour_events ++ [⟨kid, v⟩] },
       .ok kid (max 0 (keg.volume_remaining - v)))
  | none => (db, .notFoundOrNotTapped)

/-- `subtract_volume` (src/keg_app.py lines 114-120): clamped subtraction
on the first Tapped keg with the given id, returning the keg; `None` and
no change when the keg is absent or not tapped.  It appends no
`PourEvent`. -/
def subtract_volume (kid : ℕ) (v : ℚ) (db : DB) : DB × Option Keg :=
  match findTapped kid db with
  | some keg =>
      ({ kegs := updateFirst (kegMatch kid) (clampKeg v) db.kegs
         pour_events := db.pour_events },
       some (clampKeg v keg))
  | none => (db, none)

/-! ## Integration fallback (src/flow_meter_integration.py) -/

/-- `MultiTapFlowSystem._update_keg_volume_db` (lines 61-79): its own
session, the same Tapped lookup and clamped subtraction, then commit;
warning and no change when the keg is absent or not tapped. -/
def update_keg_volume_db (kid : ℕ) (v : ℚ) (db : DB) : DB :=
  match findTapped kid db with
  | some _ => { db with kegs := updateFirst (kegMatch kid) (clampKeg v) db.kegs }
  | none => db

/-- `MultiTapFlowSystem._log_pour_event_db` (lines 81-92).  The body
executes `PourEvent(keg_id=..., ...)`, but `PourEvent` is never imported
into flow_meter_integration.py (line 20 imports only `SessionLocal,
subtract_volume, log_pour_event, Keg, KegStatus` from keg_app), so every
call raises `NameError` before `session.add`; the blanket
`except Exception` catches it and only logs.  Net effect on the store:
nothing is written. -/
def log_pour_event_db (_kid : ℕ) (_v : ℚ) (db : DB) : DB :=
  db

/-- The fallback path of `_update_keg_volume_api` (lines 159-178) taken
when the HTTP call fails or answers non-200: `_update_keg_volume_db`
followed by `_log_pour_event_db`, two separate sessions committed
independently. -/
def fallback_commit (kid : ℕ) (v : ℚ) (db : DB) : DB :=
  log_pour_event_db kid v (update_keg_volume_db kid v db)

/-! ## Pour-session tracker (src/flow_meter.py, KegFlowTracker) -/

/-- One of the tracker's keg-system callbacks being invoked with
`(keg_id, volume_poured)`.  In `setup_tap`
(src/flow_meter_integration.py lines 196-230) `update_keg_callback` is the
API commit (with DB fallback), `log_pour_callback` is a no-op lambda, and
`finish_pour_callback` is never set. -/
inductive Call where
  | finishPour (keg_id : ℕ) (v : ℚ)
  | logPour (keg_id : ℕ) (v : ℚ)
  | updateKeg (keg_id : ℕ) (v : ℚ)
deriving Repr, DecidableEq

/-- `KegFlowTracker` state read and written by `_monitor_pour_events`,
`stop_tracking` and `_on_volume_change`.  `volume_total` mirrors
`self.flow_meter.volume_total`; `stopped` is the `stop_monitoring`
threading event. -/
structure Tracker where
  keg_id : ℕ
  pour_threshold_ml : ℚ
  pour_timeout : ℚ
  last_logged_volume : ℚ
  is_pouring : Bool
  last_flow_time : ℚ
  volume_total : ℚ
  stopped : Bool
deriving Repr, DecidableEq

/-- One iteration of the `_monitor_pour_events` loop body (src/flow_meter.py
lines 326-354) at wall-clock time `now`: if a pour is active and no flow
arrived for longer than `pour_timeout`, compute the unlogged volume; when
it reaches `pour_threshold_ml` (in mL) fire finish/log/update callbacks
with it, and in every timed-out case discard the session
(`is_pouring := false`, `last_logged_volume := volume_total`). -/
def monitorCheck (now : ℚ) (tr : Tracker) : Tracker × List Call :=
  if tr.is_pouring then
    if tr.pour_timeout < now - tr.last_flow_time then
      ({ tr with is_pouring := false, last_logged_volume := tr.volume_total },
       if tr.pour_threshold_ml ≤ (tr.volume_total - tr.last_logged_volume) * 1000 then
         [.finishPour tr.keg_id (tr.volume_total - tr.last_logged_volume),
          .logPour tr.keg_id (tr.volume_total - tr.last_logged_volume),
          .updateKeg tr.keg_id (tr.volume_total - tr.last_logged_volume)]
       else [])
    else (tr, [])
  else (tr, [])

/-- The `_monitor_pour_events` loop over a list of successive check times:
`while not self.stop_monitoring.is_set(): ...` — each pass first tests the
stop event and exits without any further work once it is set. -/
def monitorLoop : List ℚ → Tracker → Tracker × List Call
  | [], tr => (tr, [])
  | now :: rest, tr =>
      if tr.stopped then (tr, [])
      else
        let (tr', cs) := monitorCheck now tr
        let (tr'', cs') := monitorLoop rest tr'
        (tr'', cs ++ cs')

/-- `KegFlowTracker.stop_tracking` (src/flow_meter.py lines 366-371): set
the stop event, join the monitor thread, log.  No session field is
touched and no callback is invoked. -/
def stopTracking (tr : Tracker) : Tracker :=
  { tr with stopped := true }

/-- Effect of one callback invocation on the keg store.  `updateKeg` is
`_update_keg_volume_api`, whose success path is the `flow_update` handler
and whose failure path is `fallback_commit`; `logPour` is the no-op lambda
from `setup_tap`; `finishPour` (`_finish_active_pour`) touches only the
in-memory active-pour dictionary. -/
def applyCall (apiUp : Bool) (db : DB) : Call → DB
  | .updateKeg kid v => if apiUp then (flow_update kid v db).1 else fallback_commit kid v db
  | .logPour _ _ => db
  | .finishPour _ _ => db

/-- Apply a list of callback invocations to the store in order. -/
def applyCalls (apiUp : Bool) (cs : List Call) (db : DB) : DB :=
  cs.foldl (applyCall apiUp) db

/-! ## Helper lemmas -/

/-- A debounced edge leaves the whole meter state unchanged. -/
lemma pulseDetected_rejected {t : ℚ} {s : FlowMeter}
    (h : t - s.last_pulse_time < 1/1000) : pulseDetected t s = s := by
  unfold pulseDetected
  rw [if_pos h]

/-- An accepted edge increments the count by one and records its time. -/
lemma pulseDetected_accepted {t : ℚ} {s : FlowMeter}
    (h : ¬ t - s.last_pulse_time < 1/1000) :
    (pulseDetected t s).pulse_count = s.pulse_count + 1 ∧
      (pulseDetected t s).last_pulse_time = t := by
  unfold pulseDetected
  rw [if_neg h]
  exact ⟨rfl, rfl⟩

/-- Each raw edge adds at most one to the pulse count. -/
lemma pulseDetected_count_le (t : ℚ) (s : FlowMeter) :
    (pulseDetected t s).pulse_count ≤ s.pulse_count + 1 := by
  unfold pulseDetected
  split
  · exact Nat.le_succ _
  · exact Nat.le_refl _

lemma runPulses_nil (s : FlowMeter) : runPulses [] s = s := rfl

lemma runPulses_cons (t : ℚ) (ts : List ℚ) (s : FlowMeter) :
    runPulses (t :: ts) s = runPulses ts (pulseDetected t s) := rfl

/-- While the last accepted pulse lies in a sub-millisecond cluster
`[a, b]`, every further edge from that cluster is debounced away. -/
lemma runPulses_frozen {a b : ℚ} (hab : b - a < 1/1000) :
    ∀ (ts : List ℚ) (s : FlowMeter), a ≤ s.last_pulse_time →
      (∀ x ∈ ts, a ≤ x ∧ x ≤ b) → runPulses ts s = s := by
  intro ts
  induction ts with
  | nil => intro s _ _; rfl
  | cons t ts ih =>
      intro s hs hmem
      have ht : t - s.last_pulse_time < 1/1000 :=
        lt_of_le_of_lt (by linarith [(hmem t (List.mem_cons_self t ts)).2]) hab
      rw [runPulses_cons, pulseDetected_rejected ht]
      exact ih s hs fun x hx => hmem x (List.mem_cons_of_mem t hx)

/-- All the edges of a sub-millisecond cluster together count at most one
pulse. -/
lemma runPulses_cluster {a b : ℚ} (hab : b - a < 1/1000) :
    ∀ (ts : List ℚ) (s : FlowMeter), (∀ x ∈ ts, a ≤ x ∧ x ≤ b) →
      (runPulses ts s).pulse_count ≤ s.pulse_count + 1 := by
  intro ts
  induction ts with
  | nil => intro s _; exact Nat.le_succ _
  | cons t ts ih =>
      intro s hmem
      rw [runPulses_cons]
      by_cases ht : t - s.last_pulse_time < 1/1000
      · rw [pulseDetected_rejected ht]
        exact ih s fun x hx => hmem x (List.mem_cons_of_mem t hx)
      · obtain ⟨hc, hl⟩ := pulseDetected_accepted ht
        have ha : a ≤ (pulseDetected t s).last_pulse_time := by
          rw [hl]; exact (hmem t (List.mem_cons_self t ts)).1
        rw [runPulses_frozen hab ts (pulseDetected t s) ha
          fun x hx => hmem x (List.mem_cons_of_mem t hx), hc]

/-- The pulse count grows by at most the number of raw edges processed. -/
lemma runPulses_count_le :
    ∀ (ts : List ℚ) (s : FlowMeter),
      (runPulses ts s).pulse_count ≤ s.pulse_count + ts.length := by
  intro ts
  induction ts with
  | nil => intro s; exact Nat.le_refl _
  | cons t ts ih =>
      intro s
      rw [runPulses_cons]
      calc (runPulses ts (pulseDetected t s)).pulse_count
          ≤ (pulseDetected t s).pulse_count + ts.length := ih _
        _ ≤ s.pulse_count + 1 + ts.length :=
            Nat.add_le_add_right (pulseDetected_count_le t s) _
        _ = s.pulse_count + (t :: ts).length := by
            simp [List.length_cons]; omega

/-- The round-trip invariant `volume_total = pulse_count / pulses_per_liter`. -/
def VolumeInv (s : FlowMeter) : Prop :=
  s.volume_total = (s.pulse_count : ℚ) / s.pulses_per_liter

lemma volumeInv_pulse (t : ℚ) {s : FlowMeter} (h : VolumeInv s) :
    VolumeInv (pulseDetected t s) := by
  unfold VolumeInv pulseDetected
  split
  · exact h
  · push_cast
    ring_nf

lemma volumeInv_reset {s : FlowMeter} : VolumeInv s.reset := by
  unfold VolumeInv FlowMeter.reset
  simp

lemma volumeInv_calibrate {v : ℚ} {s s' : FlowMeter} (h : VolumeInv s)
    (hc : s.calibrate v = some s') : VolumeInv s' := by
  unfold FlowMeter.calibrate at hc
  split at hc
  · split at hc
    · exact absurd hc (by simp)
    · rename_i hpc hv
      obtain rfl := Option.some.injEq .. ▸ hc
      unfold VolumeInv
      have hpcQ : ((s.pulse_count : ℚ)) ≠ 0 := by
        exact_mod_cast Nat.pos_iff_ne_zero.mp hpc
      field_simp
  · obtain rfl := Option.some.injEq .. ▸ hc
    exact h

lemma runOps_volumeInv :
    ∀ (ops : List Op) (s s' : FlowMeter), VolumeInv s →
      runOps ops s = some s' → VolumeInv s' := by
  intro ops
  induction ops with
  | nil =>
      intro s s' h hr
      obtain rfl : s = s' := by simpa [runOps] using hr
      exact h
  | cons op ops ih =>
      intro s s' h hr
      rw [runOps, List.foldlM_cons] at hr
      obtain ⟨s1, h1, h2⟩ := Option.bind_eq_some.mp hr
      refine ih s1 s' ?_ h2
      cases op with
      | pulse t =>
          obtain rfl : pulseDetected t s = s1 := by simpa [runOp] using h1
          exact volumeInv_pulse t h
      | reset =>
          obtain rfl : s.reset = s1 := by simpa [runOp] using h1
          exact volumeInv_reset
      | calib v => exact volumeInv_calibrate h h1

/-- Updating the first row matching `p` with a `p`-preserving change moves
`find?` to the updated row. -/
lemma find?_updateFirst {α : Type} {p : α → Bool} {f : α → α}
    (hp : ∀ x, p x = true → p (f x) = true) :
    ∀ {l : List α} {k : α}, l.find? p = some k →
      (updateFirst p f l).find? p = some (f k) := by
  intro l
  induction l with
  | nil => intro k h; simp [List.find?] at h
  | cons x xs ih =>
      intro k h
      by_cases hx : p x
      · rw [List.find?_cons_of_pos _ hx, Option.some.injEq] at h
        subst h
        unfold updateFirst
        rw [if_pos hx, List.find?_cons_of_pos _ (hp x hx)]
      · rw [List.find?_cons_of_neg _ (by simp [hx])] at h
        unfold updateFirst
        rw [if_neg (by simp [hx]), List.find?_cons_of_neg _ (by simp [hx])]
        exact ih h

/-- For a strictly sorted list with at least two entries, the window span
`last - head` is positive. -/
lemma span_pos_of_sorted :
    ∀ (l : List ℚ), l.Sorted (· < ·) → 1 < l.length → 0 < span l := by
  intro l hs hl
  match l, hl with
  | a :: b :: rest, _ =>
      have hne : (b :: rest) ≠ [] := by simp
      have hlast : (a :: b :: rest).getLast? = some ((b :: rest).getLast hne) := by
        rw [List.getLast?_cons_cons, List.getLast?_eq_getLast _ hne]
      have hmem : (b :: rest).getLast hne ∈ b :: rest := List.getLast_mem hne
      have ha : a < (b :: rest).getLast hne :=
        (List.pairwise_cons.mp hs).1 _ hmem
      unfold span
      rw [hlast]
      simp only [List.head?_cons, Option.getD_some]
      linarith

/-- The pruned window of a state whose recorded times are strictly sorted
and precede the newly accepted time is itself strictly sorted. -/
lemma prunedTimes_sorted {t : ℚ} {s : FlowMeter}
    (hsort : s.pulse_times.Sorted (· < ·))
    (hlt : ∀ x ∈ s.pulse_times, x < t) :
    (prunedTimes t s).Sorted (· < ·) := by
  apply List.Pairwise.sublist (List.filter_sublist _)
  rw [List.pairwise_append]
  refine ⟨hsort, List.pairwise_singleton _ _, ?_⟩
  intro x hx y hy
  rw [List.mem_singleton] at hy
  subst hy
  exact hlt x hx

/-! ## Claim theorems -/

/-- C7: an edge arriving within the 1 ms debounce interval of the previous
accepted edge does not increment `totalPulses` (it leaves the meter
unchanged); over any raw edge sequence the counted pulses number at most
the raw edges; and all the edges of a cluster spanning less than the
debounce interval — in particular any two edges closer than it —
contribute at most one counted pulse. -/
theorem debounce_bounds (s : FlowMeter) (ts : List ℚ) (a b : ℚ) :
    (∀ t, t - s.last_pulse_time < 1/1000 →
      (pulseDetected t s).pulse_count = s.pulse_count) ∧
    (runPulses ts s).pulse_count ≤ s.pulse_count + ts.length ∧
    (b - a < 1/1000 → (∀ x ∈ ts, a ≤ x ∧ x ≤ b) →
      (runPulses ts s).pulse_count ≤ s.pulse_count + 1) := by
  refine ⟨fun t ht => by rw [pulseDetected_rejected ht], runPulses_count_le ts s, ?_⟩
  intro hab hmem
  exact runPulses_cluster hab ts s hmem

/-- Witness for C7 at a concrete input: two edges 0.5 ms apart yield at
most one counted pulse from a fresh meter. -/
theorem debounce_bounds_witness :
    ((201/2000 : ℚ) - (1/10 : ℚ) < 1/1000 ∧
      (∀ x ∈ [(1/10 : ℚ), 201/2000], 1/10 ≤ x ∧ x ≤ 201/2000)) ∧
    (runPulses [(1/10 : ℚ), 201/2000] (FlowMeter.init 450)).pulse_count ≤
      (FlowMeter.init 450).pulse_count + 1 :=
  ⟨by constructor <;> norm_num,
   (debounce_bounds (FlowMeter.init 450) [(1/10 : ℚ), 201/2000] (1/10) (201/2000)).2.2
     (by norm_num) (by norm_num)⟩

/-- C8: after any sequence of edges, resets and non-raising calibrations,
`volume_total = pulse_count / pulses_per_liter` exactly. -/
theorem volume_roundtrip (ops : List Op) (ppl : ℚ) (s : FlowMeter)
    (h : runOps ops (FlowMeter.init ppl) = some s) :
    s.volume_total = (s.pulse_count : ℚ) / s.pulses_per_liter :=
  runOps_volumeInv ops (FlowMeter.init ppl) s (by unfold VolumeInv FlowMeter.init; simp) h

/-- Witness for C8: a pulse, a calibration to 0.5 L, a reset and another
pulse, evaluated concretely. -/
theorem volume_roundtrip_witness :
    runOps [Op.pulse 100, Op.calib (1/2), Op.reset, Op.pulse 200] (FlowMeter.init 450) =
      some ⟨2, 1, 1/2, 0, 200, [200], 10⟩ ∧
    (1/2 : ℚ) = ((1 : ℕ) : ℚ) / 2 := by
  have hrun : runOps [Op.pulse 100, Op.calib (1/2), Op.reset, Op.pulse 200]
      (FlowMeter.init 450) = some ⟨2, 1, 1/2, 0, 200, [200], 10⟩ := by
    norm_num [runOps, runOp, List.foldlM, pulseDetected, prunedTimes, span,
      FlowMeter.init, FlowMeter.reset, FlowMeter.calibrate]
  refine ⟨hrun, ?_⟩
  have h := volume_roundtrip [Op.pulse 100, Op.calib (1/2), Op.reset, Op.pulse 200] 450
    ⟨2, 1, 1/2, 0, 200, [200], 10⟩ hrun
  exact h

/-- C9: calibrating with zero pulses recorded is a no-op — the whole state,
in particular `pulses_per_liter`, is returned unchanged and no division is
reached. -/
theorem calibrate_zero_pulses_noop (s : FlowMeter) (v : ℚ)
    (h : s.pulse_count = 0) :
    s.calibrate v = some s := by
  unfold FlowMeter.calibrate
  rw [if_neg (by omega)]

/-- Witness for C9: calibrating a fresh meter changes nothing. -/
theorem calibrate_zero_pulses_noop_witness :
    (FlowMeter.init 450).pulse_count = 0 ∧
      (FlowMeter.init 450).calibrate (1/2) = some (FlowMeter.init 450) :=
  ⟨rfl, calibrate_zero_pulses_noop (FlowMeter.init 450) (1/2) rfl⟩

/-- C10: with at least one pulse recorded, `calibrate(0)` performs
`pulse_count / 0` and raises `ZeroDivisionError` (modelled as `none`): the
zero-divisor guard covers only the zero-pulse case. -/
theorem calibrate_zero_volume_raises (s : FlowMeter)
    (h : 0 < s.pulse_count) :
    s.calibrate 0 = none := by
  unfold FlowMeter.calibrate
  rw [if_pos h, if_pos rfl]

/-- Witness for C10: one accepted pulse, then `calibrate(0)` raises. -/
theorem calibrate_zero_volume_raises_witness :
    0 < (pulseDetected 100 (FlowMeter.init 450)).pulse_count ∧
      (pulseDetected 100 (FlowMeter.init 450)).calibrate 0 = none :=
  ⟨by norm_num [pulseDetected, FlowMeter.init],
   calibrate_zero_volume_raises (pulseDetected 100 (FlowMeter.init 450))
     (by norm_num [pulseDetected, FlowMeter.init])⟩

/-- Meter state after accepted pulses at t = 100 s, 100.5 s and 200 s:
the first two set a nonzero rate, the third leaves a single sample in the
10 s window. -/
def meterC5 : FlowMeter :=
  pulseDetected 200 (pulseDetected (201/2) (pulseDetected 100 (FlowMeter.init 450)))

/-- Counterexample to C5 as stated: after the pulse at 200 s only one
timestamp remains in the trailing window, yet `flow_rate` is not zero —
`_pulse_detected` never clears it, so the stale value from the earlier
burst persists. -/
theorem flow_rate_stale_counterexample :
    meterC5.pulse_times.length < 2 ∧ meterC5.flow_rate ≠ 0 := by
  have h : meterC5 = ⟨450, 3, 1/150, 4/15, 200, [200], 10⟩ := by
    norm_num [meterC5, pulseDetected, prunedTimes, span, FlowMeter.init]
  rw [h]
  exact ⟨by norm_num, by norm_num⟩

/-- C5 amended: after an accepted pulse (arriving after the times already
in the window), the rate is recomputed as
`(countInWindow − 1) / timeSpanInWindow` scaled to volume per minute when
at least 2 timestamps remain in the window; with fewer than 2 it keeps its
previous value instead of becoming zero. -/
theorem flow_rate_update (s : FlowMeter) (t : ℚ)
    (hacc : ¬ t - s.last_pulse_time < 1/1000)
    (hsort : s.pulse_times.Sorted (· < ·))
    (hle : ∀ x ∈ s.pulse_times, x ≤ s.last_pulse_time) :
    (pulseDetected t s).flow_rate =
      if 1 < (prunedTimes t s).length then
        (((prunedTimes t s).length : ℚ) - 1) / span (prunedTimes t s) /
          s.pulses_per_liter * 60
      else s.flow_rate := by
  have hlast : s.last_pulse_time < t := by
    rw [not_lt] at hacc
    linarith
  have hlt : ∀ x ∈ s.pulse_times, x < t := fun x hx =>
    lt_of_le_of_lt (hle x hx) hlast
  have hsorted := prunedTimes_sorted hsort hlt
  unfold pulseDetected
  rw [if_neg hacc]
  show (if 1 < (prunedTimes t s).length ∧ 0 < span (prunedTimes t s) then _ else _) = _
  by_cases hlen : 1 < (prunedTimes t s).length
  · rw [if_pos ⟨hlen, span_pos_of_sorted _ hsorted hlen⟩, if_pos hlen]
  · rw [if_neg (fun h => hlen h.1), if_neg hlen]

/-- Witness for the amended C5: second accepted pulse on a fresh meter,
0.5 s after the first. -/
theorem flow_rate_update_witness :
    (¬ ((201/2 : ℚ) - (pulseDetected 100 (FlowMeter.init 450)).last_pulse_time < 1/1000) ∧
      (pulseDetected 100 (FlowMeter.init 450)).pulse_times.Sorted (· < ·) ∧
      (∀ x ∈ (pulseDetected 100 (FlowMeter.init 450)).pulse_times,
        x ≤ (pulseDetected 100 (FlowMeter.init 450)).last_pulse_time)) ∧
    (pulseDetected (201/2) (pulseDetected 100 (FlowMeter.init 450))).flow_rate =
      if 1 < (prunedTimes (201/2) (pulseDetected 100 (FlowMeter.init 450))).length then
        (((prunedTimes (201/2) (pulseDetected 100 (FlowMeter.init 450))).length : ℚ) - 1) /
          span (prunedTimes (201/2) (pulseDetected 100 (FlowMeter.init 450))) /
          (pulseDetected 100 (FlowMeter.init 450)).pulses_per_liter * 60
      else (pulseDetected 100 (FlowMeter.init 450)).flow_rate :=
  ⟨⟨by norm_num [pulseDetected, prunedTimes, FlowMeter.init],
    by norm_num [pulseDetected, prunedTimes, FlowMeter.init],
    by norm_num [pulseDetected, prunedTimes, FlowMeter.init]⟩,
   flow_rate_update (pulseDetected 100 (FlowMeter.init 450)) (201/2)
     (by norm_num [pulseDetected, prunedTimes, FlowMeter.init])
     (by norm_num [pulseDetected, prunedTimes, FlowMeter.init])
     (by norm_num [pulseDetected, prunedTimes, FlowMeter.init])⟩

/-- C1: committing a pour of `v ≥ 0` against a Tapped keg through the
flow-update handler answers with the clamped volume, appends exactly one
`PourEvent` carrying `v`, and stores
`volume_remaining = max(0, volume_remaining − v)` on that keg. -/
theorem flow_update_commits (db : DB) (kid : ℕ) (v : ℚ) (k : Keg)
    (hfind : findTapped kid db = some k) (_hv : 0 ≤ v) :
    (flow_update kid v db).2 = .ok kid (max 0 (k.volume_remaining - v)) ∧
    (flow_update kid v db).1.pour_events = db.pour_events ++ [⟨kid, v⟩] ∧
    findTapped kid (flow_update kid v db).1 = some (clampKeg v k) := by
  unfold flow_update
  rw [hfind]
  refine ⟨rfl, rfl, ?_⟩
  show List.find? (kegMatch kid) (updateFirst (kegMatch kid) (clampKeg v) db.kegs) =
    some (clampKeg v k)
  exact find?_updateFirst (p := kegMatch kid) (f := clampKeg v) (fun x hx => hx) hfind

/-- Witness for C1: a keg at 0.05 L, a 0.2 L commit — one `PourEvent` of
0.2 L and a final volume of exactly 0, not negative. -/
theorem flow_update_commits_witness :
    (findTapped 1 ⟨[⟨1, KegStatus.tapped, 1/20⟩], []⟩ = some ⟨1, KegStatus.tapped, 1/20⟩ ∧
      (0:ℚ) ≤ 1/5) ∧
    (flow_update 1 (1/5) ⟨[⟨1, KegStatus.tapped, 1/20⟩], []⟩).2 = .ok 1 0 ∧
    (flow_update 1 (1/5) ⟨[⟨1, KegStatus.tapped, 1/20⟩], []⟩).1.pour_events = [⟨1, 1/5⟩] ∧
    findTapped 1 (flow_update 1 (1/5) ⟨[⟨1, KegStatus.tapped, 1/20⟩], []⟩).1 =
      some ⟨1, KegStatus.tapped, 0⟩ := by
  have hmax : max (0:ℚ) (1/20 - 1/5) = 0 := by norm_num
  have h := flow_update_commits ⟨[⟨1, KegStatus.tapped, 1/20⟩], []⟩ 1 (1/5)
    ⟨1, KegStatus.tapped, 1/20⟩ rfl (by norm_num)
  obtain ⟨h1, h2, h3⟩ := h
  refine ⟨⟨rfl, by norm_num⟩, ?_, ?_, ?_⟩
  · rw [h1, hmax]
  · rw [h2]
    rfl
  · rw [h3]
    unfold clampKeg
    rw [hmax]

/-- C3: when no keg with the given id is in Tapped status, both the
flow-update handler and `subtract_volume` answer failure and leave the
store untouched: no keg field changes and no `PourEvent` is appended. -/
theorem not_tapped_no_mutation (db : DB) (kid : ℕ) (v : ℚ)
    (h : findTapped kid db = none) :
    flow_update kid v db = (db, .notFoundOrNotTapped) ∧
      subtract_volume kid v db = (db, none) := by
  unfold flow_update subtract_volume
  rw [h]
  exact ⟨rfl, rfl⟩

/-- Witness for C3: an off-tap keg is not a commit target. -/
theorem not_tapped_no_mutation_witness :
    findTapped 1 ⟨[⟨1, KegStatus.off_tap, 1/2⟩], []⟩ = none ∧
    flow_update 1 (1/5) ⟨[⟨1, KegStatus.off_tap, 1/2⟩], []⟩ =
      (⟨[⟨1, KegStatus.off_tap, 1/2⟩], []⟩, .notFoundOrNotTapped) ∧
    subtract_volume 1 (1/5) ⟨[⟨1, KegStatus.off_tap, 1/2⟩], []⟩ =
      (⟨[⟨1, KegStatus.off_tap, 1/2⟩], []⟩, none) := by
  have h := not_tapped_no_mutation ⟨[⟨1, KegStatus.off_tap, 1/2⟩], []⟩ 1 (1/5) rfl
  exact ⟨rfl, h.1, h.2⟩

/-- C4 at its failing input (the code bug): a fallback commit of 0.1 L
against keg 1, Tapped at 1 L.  The clamped subtraction goes through, yet
the pour-event log stays empty — `_log_pour_event_db` always raises
`NameError` (`PourEvent` is not imported in flow_meter_integration.py)
which the blanket `except` swallows, and the two halves run in separate
sessions anyway, so they are not one atomic unit. -/
theorem fallback_commit_no_event :
    fallback_commit 1 (1/10) ⟨[⟨1, KegStatus.tapped, 1⟩], []⟩ =
      ⟨[⟨1, KegStatus.tapped, 9/10⟩], []⟩ ∧
    (fallback_commit 1 (1/10) ⟨[⟨1, KegStatus.tapped, 1⟩], []⟩).kegs ≠
      [⟨1, KegStatus.tapped, 1⟩] ∧
    (fallback_commit 1 (1/10) ⟨[⟨1, KegStatus.tapped, 1⟩], []⟩).pour_events = [] := by
  have h : fallback_commit 1 (1/10) ⟨[⟨1, KegStatus.tapped, 1⟩], []⟩ =
      ⟨[⟨1, KegStatus.tapped, 9/10⟩], []⟩ := by
    norm_num [fallback_commit, update_keg_volume_db, log_pour_event_db,
      findTapped, kegMatch, updateFirst, clampKeg, List.find?]
  rw [h]
  refine ⟨rfl, ?_, rfl⟩
  intro hk
  simp only [List.cons.injEq, Keg.mk.injEq] at hk
  have h910 : (9/10 : ℚ) = 1 := hk.1.2.2
  norm_num at h910

/-- C2: a pour session whose accumulated volume in mL is below the
threshold when the timeout fires is discarded silently: the monitor
iteration invokes no callback, so nothing is appended to the pour-event
log and no keg is mutated; the session is reset
(`is_pouring := false`, logged volume caught up). -/
theorem below_threshold_silent (tr : Tracker) (now : ℚ) (apiUp : Bool) (db : DB)
    (hp : tr.is_pouring = true)
    (ht : tr.pour_timeout < now - tr.last_flow_time)
    (hv : (tr.volume_total - tr.last_logged_volume) * 1000 < tr.pour_threshold_ml) :
    (monitorCheck now tr).2 = [] ∧
    (monitorCheck now tr).1 =
      { tr with is_pouring := false, last_logged_volume := tr.volume_total } ∧
    applyCalls apiUp (monitorCheck now tr).2 db = db := by
  have hcheck : monitorCheck now tr =
      ({ tr with is_pouring := false, last_logged_volume := tr.volume_total }, []) := by
    unfold monitorCheck
    rw [hp, if_pos rfl, if_pos ht, if_neg (not_le.mpr hv)]
  rw [hcheck]
  exact ⟨rfl, rfl, rfl⟩

/-- Witness for C2: threshold 50 mL, 30 mL accumulated, timeout elapsed —
zero callbacks, keg store unchanged. -/
theorem below_threshold_silent_witness :
    ((⟨1, 50, 5, 0, true, 1000, 3/100, false⟩ : Tracker).is_pouring = true ∧
      (⟨1, 50, 5, 0, true, 1000, 3/100, false⟩ : Tracker).pour_timeout <
        1006 - (⟨1, 50, 5, 0, true, 1000, 3/100, false⟩ : Tracker).last_flow_time ∧
      ((⟨1, 50, 5, 0, true, 1000, 3/100, false⟩ : Tracker).volume_total -
        (⟨1, 50, 5, 0, true, 1000, 3/100, false⟩ : Tracker).last_logged_volume) * 1000 <
        (⟨1, 50, 5, 0, true, 1000, 3/100, false⟩ : Tracker).pour_threshold_ml) ∧
    (monitorCheck 1006 ⟨1, 50, 5, 0, true, 1000, 3/100, false⟩).2 = [] ∧
    (monitorCheck 1006 ⟨1, 50, 5, 0, true, 1000, 3/100, false⟩).1 =
      ⟨1, 50, 5, 3/100, false, 1000, 3/100, false⟩ ∧
    applyCalls true (monitorCheck 1006 ⟨1, 50, 5, 0, true, 1000, 3/100, false⟩).2
      ⟨[⟨1, KegStatus.tapped, 1/2⟩], []⟩ = ⟨[⟨1, KegStatus.tapped, 1/2⟩], []⟩ :=
  ⟨⟨rfl, by norm_num, by norm_num⟩,
   below_threshold_silent ⟨1, 50, 5, 0, true, 1000, 3/100, false⟩ 1006 true
     ⟨[⟨1, KegStatus.tapped, 1/2⟩], []⟩ rfl (by norm_num) (by norm_num)⟩

/-- Tracker of keg 1 in an Active session: 0.2 L accumulated and
unlogged (above the 50 mL threshold), flow last seen at t = 1000 s. -/
def trackerC6 : Tracker :=
  ⟨1, 50, 5, 0, true, 1000, 1/5, false⟩

/-- Counterexample to C6 as stated: stopping tracking during this Active
session neither commits nor discards it — no callback fires over the
remaining monitor iterations, `is_pouring` stays true and the 0.2 L stays
unlogged, although it is above threshold. -/
theorem stop_tracking_drop_counterexample :
    50 ≤ (trackerC6.volume_total - trackerC6.last_logged_volume) * 1000 ∧
    monitorLoop [1000, 10001/10, 1001] (stopTracking trackerC6) =
      (stopTracking trackerC6, []) ∧
    (stopTracking trackerC6).is_pouring = true ∧
    (stopTracking trackerC6).last_logged_volume ≠ trackerC6.volume_total := by
  refine ⟨by norm_num [trackerC6], ?_, rfl, by norm_num [trackerC6, stopTracking]⟩
  simp [monitorLoop, stopTracking]

/-- C6 amended: `stop_tracking` only sets the stop event and joins the
monitor thread; the session state is untouched (neither committed nor
discarded) and once the stop event is set the monitor loop exits without
emitting any callback, whatever check times remain. -/
theorem stop_tracking_no_finalize (tr : Tracker) (times : List ℚ) :
    (stopTracking tr).is_pouring = tr.is_pouring ∧
    (stopTracking tr).last_logged_volume = tr.last_logged_volume ∧
    (stopTracking tr).volume_total = tr.volume_total ∧
    monitorLoop times (stopTracking tr) = (stopTracking tr, []) := by
  refine ⟨rfl, rfl, rfl, ?_⟩
  cases times with
  | nil => rfl
  | cons a l => simp [monitorLoop, stopTracking]

end Superkeg
